import Mathlib

/-!
Verification of the schema-resolution logic of `timeplus_schema_reader.py`
(class `TimeplusSchemaReader`) and the related static-schema helper of
`t_metrics_agent_v2.py`, against the repository specification.

The database client (`proton_driver.client.Client`) is external.  Its
observable behaviour during one resolution is captured by `DbEnv`:
whether the driver module imported, whether client construction and the
`SELECT 1` probe succeed, and the outcome (exception or row list) of the
`system.columns` query and of the `DESCRIBE` query.  Rows are lists of
strings, possibly with fewer than three fields (malformed rows).
-/

/-- Connection parameters held by a `TimeplusSchemaReader` instance
(`__init__`, lines 36-40 of timeplus_schema_reader.py). -/
structure ReaderConfig where
  host : String
  port : Nat
  user : String
  password : String
  database : String
deriving DecidableEq

/-- One resolution's view of the external database client.
`protonAvailable` models the module-level `PROTON_AVAILABLE` flag;
`ctorOk` whether `client.Client(...)` returns without raising;
`probeOk` whether the `SELECT 1` probe succeeds;
`columnsQuery` the outcome of the `system.columns` query
(`Except.error` models a raised exception);
`describeQuery` the outcome of the `DESCRIBE` query. -/
structure DbEnv where
  protonAvailable : Bool
  ctorOk : Bool
  probeOk : Bool
  columnsQuery : Except Unit (List (List String))
  describeQuery : Except Unit (List (List String))

/-- Result dictionary of `get_schema_dict` / `_get_fallback_schema`.
`columns` keeps Python dict semantics: insertion order with last-value
overwrite, modeled by `dictInsert`.  `connection_info` is present only in
the live result (the fallback dict has no such key). -/
structure ConnectionInfo where
  host : String
  port : Nat
  database : String
deriving DecidableEq

structure SchemaDict where
  table_name : String
  description : String
  columns : List (String × String)
  constraints : List String
  source : String
  connection_info : Option ConnectionInfo
deriving DecidableEq

/-- `connect` (lines 43-61): returns `True` iff the driver is available,
client construction succeeds and the `SELECT 1` probe succeeds; every
exception is caught and turned into `False`. -/
def connect (env : DbEnv) : Bool :=
  env.protonAvailable && (env.ctorOk && env.probeOk)

/-- Row extraction of `get_table_columns` (lines 88-92): each field is
`row[i] if len(row) > i else ""`, so malformed rows are defaulted, never
raising. -/
def sysColumnsRow (row : List String) : String × String × String :=
  (row.getD 0 "", row.getD 1 "", row.getD 2 "")

/-- `_describe_table` (lines 104-121): rows with fewer than two fields are
skipped; a raised exception yields `[]`. -/
def describe_table (env : DbEnv) : List (String × String × String) :=
  match env.describeQuery with
  | Except.error _ => []
  | Except.ok rows =>
      rows.filterMap fun row =>
        if 2 ≤ row.length then
          some (row.getD 0 "", row.getD 1 "", row.getD 2 "")
        else none

/-- `get_table_columns` (lines 63-102).  `hasClient` models the
`if not self.client` guard; `get_schema_dict` only calls this after a
successful `connect`, at which point `self.client` is set.  On an empty
primary result or a raised exception, `_describe_table` is consulted. -/
def get_table_columns (env : DbEnv) (hasClient : Bool) :
    List (String × String × String) :=
  if hasClient = false then []
  else
    match env.columnsQuery with
    | Except.error _ => describe_table env
    | Except.ok rows =>
        let columns := rows.map sysColumnsRow
        if columns.isEmpty then describe_table env else columns

/-- Instrumented copy of `get_table_columns` that additionally counts how
many times `_describe_table` is invoked; the first component coincides
with `get_table_columns` (`get_table_columns_instr_fst`). -/
def get_table_columns_instr (env : DbEnv) (hasClient : Bool) :
    List (String × String × String) × Nat :=
  if hasClient = false then ([], 0)
  else
    match env.columnsQuery with
    | Except.error _ => (describe_table env, 1)
    | Except.ok rows =>
        let columns := rows.map sysColumnsRow
        if columns.isEmpty then (describe_table env, 1) else (columns, 0)

/-- `_get_column_descriptions` (lines 168-188): the fixed business
descriptions, keyed by column name. -/
def get_column_descriptions : List (String × String) :=
  [("event_ts", "Event timestamp"),
   ("metric", "Metric name identifier"),
   ("value", "Metric value (use to_float64() for numeric operations)"),
   ("metric_date", "Date component"),
   ("metric_time", "Time component"),
   ("metric_datetime", "Combined datetime"),
   ("tagK1", "Tag key 1"),
   ("tagV1", "Tag value 1"),
   ("tagK2", "Tag key 2"),
   ("tagV2", "Tag value 2"),
   ("tagK3", "Tag key 3"),
   ("tagV3", "Tag value 3"),
   ("tagK4", "Tag key 4"),
   ("tagV4", "Tag value 4"),
   ("tagK5", "Tag key 5"),
   ("tagV5", "Tag value 5"),
   ("_tp_time", "System timestamp")]

/-- Description merge of `get_schema_dict` (lines 143-148): start from the
column type; a non-empty database comment is appended; otherwise, when the
column name is in the business-description table, that text is appended;
otherwise the description is the raw type alone. -/
def mergeDescription (col_name col_type comment : String) : String :=
  if comment ≠ "" then col_type ++ " - " ++ comment
  else
    match get_column_descriptions.lookup col_name with
    | some d => col_type ++ " - " ++ d
    | none => col_type

/-- Python dict insertion: an existing key keeps its position and takes the
new value; a new key is appended. -/
def dictInsert (d : List (String × String)) (k v : String) :
    List (String × String) :=
  if d.any (fun p => p.1 = k) then
    d.map fun p => if p.1 = k then (k, v) else p
  else d ++ [(k, v)]

/-- The `columns` dict built by `get_schema_dict` (lines 141-149). -/
def buildColumns (cols : List (String × String × String)) :
    List (String × String) :=
  cols.foldl (fun d c => dictInsert d c.1 (mergeDescription c.1 c.2.1 c.2.2)) []

/-- Table description shared by the live and fallback dicts. -/
def tableDescription : String :=
  "Time-series metrics data table - ONLY TABLE ALLOWED FOR QUERIES"

/-- Constraint strings shared by the live and fallback dicts. -/
def constraintsList : List String :=
  ["SINGLE TABLE ONLY - No JOINs allowed",
   "No subqueries with other tables",
   "Must search CSV knowledge base first to find relevant metrics"]

/-- The fixed fallback column list of `_get_fallback_schema`
(lines 195-213): 17 columns with literal type-and-description strings. -/
def fallback_columns : List (String × String) :=
  [("event_ts", "uint64 - Event timestamp"),
   ("metric", "string - Metric name identifier"),
   ("value", "string - Metric value (use to_float64() for numeric operations)"),
   ("metric_date", "int64 - Date component"),
   ("metric_time", "int64 - Time component"),
   ("metric_datetime", "int64 - Combined datetime"),
   ("tagK1", "low_cardinality(string) - Tag key 1"),
   ("tagV1", "string - Tag value 1"),
   ("tagK2", "low_cardinality(string) - Tag key 2"),
   ("tagV2", "string - Tag value 2"),
   ("tagK3", "low_cardinality(string) - Tag key 3"),
   ("tagV3", "string - Tag value 3"),
   ("tagK4", "low_cardinality(string) - Tag key 4"),
   ("tagV4", "string - Tag value 4"),
   ("tagK5", "low_cardinality(string) - Tag key 5"),
   ("tagV5", "string - Tag value 5"),
   ("_tp_time", "datetime64(3, \x27UTC\x27) - System timestamp")]

/-- `_get_fallback_schema` (lines 190-220): the requested table name is
echoed, the column list is always the fixed t_metrics list, the source is
`"fallback"`, and the dict carries no `connection_info` key. -/
def fallback_schema (table : String) : SchemaDict :=
  { table_name := table
    description := tableDescription
    columns := fallback_columns
    constraints := constraintsList
    source := "fallback"
    connection_info := none }

/-- The live result dict built at lines 151-166 of `get_schema_dict`. -/
def live_schema (cfg : ReaderConfig) (table : String)
    (cols : List (String × String × String)) : SchemaDict :=
  { table_name := table
    description := tableDescription
    columns := buildColumns cols
    constraints := constraintsList
    source := "timeplus_api"
    connection_info := some { host := cfg.host, port := cfg.port, database := cfg.database } }

/-- `get_schema_dict` (lines 123-166), as a function of the external
client behaviour and the instance's connection parameters: fall back when
`connect` fails or when the column retrieval is empty, otherwise build the
live dict. -/
def get_schema_dict (env : DbEnv) (cfg : ReaderConfig) (table : String) :
    SchemaDict :=
  if connect env = false then fallback_schema table
  else
    let columns_info := get_table_columns env true
    if columns_info.isEmpty then fallback_schema table
    else live_schema cfg table columns_info

/-- Mutable state of one `TimeplusSchemaReader` instance: the connection
parameters (never mutated after `__init__`) and the `self.client` field
(`None` initially).  Client objects are identified by the allocation
counter `nextId`, so "opened fresh" is expressible. -/
structure ReaderState where
  config : ReaderConfig
  client : Option Nat
  nextId : Nat
deriving DecidableEq

/-- Stateful `connect` (lines 43-61): when the driver is absent or
`client.Client(...)` raises, `self.client` is unchanged; when construction
succeeds, the fresh client is stored in `self.client` before the probe, so
the field is updated even when `SELECT 1` then fails.  Nothing ever
resets the field to `none` or closes the stored client. -/
def connect_S (env : DbEnv) (s : ReaderState) : Bool × ReaderState :=
  if env.protonAvailable = false then (false, s)
  else if env.ctorOk = false then (false, s)
  else
    let s1 : ReaderState :=
      { s with client := some s.nextId, nextId := s.nextId + 1 }
    if env.probeOk then (true, s1) else (false, s1)

/-- `get_schema_dict` with the instance state threaded explicitly; the
returned dict is the one of the pure `get_schema_dict`
(`get_schema_dict_S_fst`), and the final state records what happened to
`self.client`. -/
def get_schema_dict_S (env : DbEnv) (s : ReaderState) (table : String) :
    SchemaDict × ReaderState :=
  let r := connect_S env s
  if r.1 = false then (fallback_schema table, r.2)
  else
    let columns_info := get_table_columns env r.2.client.isSome
    if columns_info.isEmpty then (fallback_schema table, r.2)
    else (live_schema r.2.config table columns_info, r.2)

/-- Values of the five `TIMEPLUS_*` environment variables at reader
construction time (`none` = unset; the port value is modeled already
parsed, as `int(...)` of the default or the well-formed setting). -/
structure EnvVars where
  timeplus_host : Option String
  timeplus_port : Option Nat
  timeplus_user : Option String
  timeplus_password : Option String
  timeplus_database : Option String

/-- `TimeplusSchemaReader.__init__` called with no arguments (as
`get_schema_reader` does): each parameter falls back to the environment
variable, then to the literal default (lines 36-40). -/
def mkReaderConfig (e : EnvVars) : ReaderConfig :=
  { host := e.timeplus_host.getD "localhost"
    port := e.timeplus_port.getD 8463
    user := e.timeplus_user.getD "default"
    password := e.timeplus_password.getD ""
    database := e.timeplus_database.getD "default" }

/-- A freshly constructed reader instance: `self.client = None`
(line 41). -/
def mkReaderState (e : EnvVars) : ReaderState :=
  { config := mkReaderConfig e, client := none, nextId := 0 }

/-- `get_schema_reader` (lines 225-230): the module-level `_schema_reader`
global, passed in and returned explicitly.  When it is `None` a reader is
constructed from the current environment and stored; otherwise the stored
instance is returned unchanged. -/
def get_schema_reader (e : EnvVars) (g : Option ReaderState) :
    ReaderState × Option ReaderState :=
  match g with
  | none => (mkReaderState e, some (mkReaderState e))
  | some r => (r, some r)

/-- `get_table_schema` (lines 232-243): fetch the process-wide reader and
delegate to its `get_schema_dict`; mutations of the instance (its
`client` field) persist in the global. -/
def get_table_schema (e : EnvVars) (env : DbEnv) (g : Option ReaderState)
    (table : String) : SchemaDict × Option ReaderState :=
  let rg := get_schema_reader e g
  let ds := get_schema_dict_S env rg.1 table
  (ds.1, some ds.2)

/-- Result dict of `get_static_schema` in t_metrics_agent_v2.py
(lines 278-325).  Fields that a branch's dict does not carry are `none`;
the purely advisory string fields (`note`, `recommendation`,
`supported_tables`) are not modeled. -/
structure StaticSchemaResult where
  success : Bool
  source : String
  table_name : Option String
  columns : Option (List (String × String))
  column_count : Option Nat
  error : Option String
deriving DecidableEq

/-- The static column dict of `get_static_schema` (t_metrics branch). -/
def static_schema_columns : List (String × String) :=
  [("event_ts", "uint64 - Event timestamp"),
   ("metric", "string - Metric name identifier"),
   ("value", "string - Metric value (use to_float64() for numeric operations)"),
   ("metric_date", "int64 - Date component"),
   ("metric_time", "int64 - Time component"),
   ("metric_datetime", "int64 - Combined datetime"),
   ("tagK1", "low_cardinality(string) - Tag key 1"),
   ("tagV1", "string - Tag value 1"),
   ("tagK2", "low_cardinality(string) - Tag key 2"),
   ("tagV2", "string - Tag value 2"),
   ("tagK3", "low_cardinality(string) - Tag key 3"),
   ("tagV3", "string - Tag value 3"),
   ("tagK4", "low_cardinality(string) - Tag key 4"),
   ("tagV4", "string - Tag value 4"),
   ("tagK5", "low_cardinality(string) - Tag key 5"),
   ("tagV5", "string - Tag value 5"),
   ("_tp_time", "datetime64(3, \x27UTC\x27) - System timestamp")]

/-- `get_static_schema` (lines 278-325 of t_metrics_agent_v2.py): the
known table gets the static column dict with `source =
"static_definition"`; any other table gets `success = False`, `source =
"unsupported_table"` and an error string, with no column set at all. -/
def get_static_schema (table : String) : StaticSchemaResult :=
  if table = "t_metrics" then
    { success := true
      source := "static_definition"
      table_name := some table
      columns := some static_schema_columns
      column_count := some static_schema_columns.length
      error := none }
  else
    { success := false
      source := "unsupported_table"
      table_name := none
      columns := none
      column_count := none
      error := some ("No static schema available for " ++ table) }

/-! Concrete client behaviours and configurations used by witnesses and
counterexamples. -/

/-- Default connection parameters (all environment variables unset). -/
def cfg0 : ReaderConfig :=
  { host := "localhost", port := 8463, user := "default",
    password := "", database := "default" }

/-- A freshly constructed reader with default parameters. -/
def s0 : ReaderState := { config := cfg0, client := none, nextId := 0 }

/-- Driver not importable (`PROTON_AVAILABLE = False`). -/
def envNoDriver : DbEnv :=
  { protonAvailable := false, ctorOk := true, probeOk := true,
    columnsQuery := Except.error (), describeQuery := Except.error () }

/-- Driver present but the `SELECT 1` probe fails (connection refused). -/
def envConnRefused : DbEnv :=
  { protonAvailable := true, ctorOk := true, probeOk := false,
    columnsQuery := Except.error (), describeQuery := Except.error () }

/-- Healthy connection; the primary query returns one well-formed row. -/
def envHealthy : DbEnv :=
  { protonAvailable := true, ctorOk := true, probeOk := true,
    columnsQuery := Except.ok [["event_ts", "uint64", "Event ts"]],
    describeQuery := Except.error () }

/-- Healthy connection; both the primary and the secondary query return
zero rows. -/
def envConnectedEmpty : DbEnv :=
  { protonAvailable := true, ctorOk := true, probeOk := true,
    columnsQuery := Except.ok [], describeQuery := Except.ok [] }

/-- Healthy connection; the primary query returns zero rows, the
secondary `DESCRIBE` query returns one row. -/
def envPrimaryEmpty : DbEnv :=
  { protonAvailable := true, ctorOk := true, probeOk := true,
    columnsQuery := Except.ok [],
    describeQuery := Except.ok [["event_ts", "uint64", ""]] }

/-- Healthy connection; the primary query returns a single malformed row
carrying only one field. -/
def envMalformedRow : DbEnv :=
  { protonAvailable := true, ctorOk := true, probeOk := true,
    columnsQuery := Except.ok [["col1"]], describeQuery := Except.ok [] }

/-! Helper lemmas. -/

/-- The instrumented column retrieval computes the same list as
`get_table_columns`. -/
lemma get_table_columns_instr_fst (env : DbEnv) (hasClient : Bool) :
    (get_table_columns_instr env hasClient).1 = get_table_columns env hasClient := by
  unfold get_table_columns_instr get_table_columns
  by_cases h : hasClient = false
  · simp [h]
  · simp [h]
    cases env.columnsQuery with
    | error e => rfl
    | ok rows =>
        by_cases h2 : rows = [] <;> simp [h2]

/-- `dictInsert` never shrinks the dict. -/
lemma length_le_dictInsert (d : List (String × String)) (k v : String) :
    d.length ≤ (dictInsert d k v).length := by
  unfold dictInsert
  split <;> simp

/-- Folding `dictInsert` over rows never shrinks the dict. -/
lemma length_le_foldl_dictInsert (cols : List (String × String × String)) :
    ∀ d : List (String × String),
      d.length ≤
        (cols.foldl
          (fun d c => dictInsert d c.1 (mergeDescription c.1 c.2.1 c.2.2)) d).length := by
  induction cols with
  | nil => intro d; simp
  | cons c cs ih =>
      intro d
      rw [List.foldl_cons]
      exact le_trans (length_le_dictInsert d c.1 _) (ih _)

/-- The `columns` dict built from a non-empty row list is non-empty. -/
lemma buildColumns_cons_ne_nil (c : String × String × String)
    (cs : List (String × String × String)) : buildColumns (c :: cs) ≠ [] := by
  unfold buildColumns
  intro hc
  have h1 := length_le_foldl_dictInsert cs
    (dictInsert [] c.1 (mergeDescription c.1 c.2.1 c.2.2))
  rw [List.foldl_cons] at hc
  rw [hc] at h1
  simp [dictInsert] at h1

/-- `get_schema_dict` falls back when `connect` fails. -/
lemma get_schema_dict_not_connected (env : DbEnv) (cfg : ReaderConfig)
    (t : String) (h : connect env = false) :
    get_schema_dict env cfg t = fallback_schema t := by
  unfold get_schema_dict
  simp [h]

/-- `get_schema_dict` falls back when connected but no columns were
retrieved. -/
lemma get_schema_dict_connected_empty (env : DbEnv) (cfg : ReaderConfig)
    (t : String) (h : connect env = true) (h2 : get_table_columns env true = []) :
    get_schema_dict env cfg t = fallback_schema t := by
  unfold get_schema_dict
  simp [h, h2]

/-- `get_schema_dict` builds the live dict when connected and the column
retrieval is non-empty. -/
lemma get_schema_dict_connected_live (env : DbEnv) (cfg : ReaderConfig)
    (t : String) (h : connect env = true) (h2 : get_table_columns env true ≠ []) :
    get_schema_dict env cfg t = live_schema cfg t (get_table_columns env true) := by
  unfold get_schema_dict
  simp [h, h2]

/-- The stateful `connect` returns the same boolean as `connect`. -/
lemma connect_S_fst (env : DbEnv) (s : ReaderState) :
    (connect_S env s).1 = connect env := by
  obtain ⟨pa, ct, pr, cq, dq⟩ := env
  cases pa <;> cases ct <;> cases pr <;> rfl

/-- The state after a stateful `connect` when construction succeeds. -/
lemma connect_S_snd_of_ctor (env : DbEnv) (s : ReaderState)
    (hpa : env.protonAvailable = true) (hct : env.ctorOk = true) :
    (connect_S env s).2 = { s with client := some s.nextId, nextId := s.nextId + 1 } := by
  unfold connect_S
  cases hpr : env.probeOk <;> simp [hpa, hct, hpr]

/-- The state is untouched when the driver is absent or construction
raises. -/
lemma connect_S_snd_of_fail (env : DbEnv) (s : ReaderState)
    (h : env.protonAvailable = false ∨ env.ctorOk = false) :
    (connect_S env s).2 = s := by
  unfold connect_S
  rcases h with h | h
  · simp [h]
  · by_cases hpa : env.protonAvailable = false <;> simp [hpa, h]

/-- `get_schema_dict_S` returns the post-`connect` state on every path. -/
lemma get_schema_dict_S_snd (env : DbEnv) (s : ReaderState) (t : String) :
    (get_schema_dict_S env s t).2 = (connect_S env s).2 := by
  unfold get_schema_dict_S
  by_cases h : (connect_S env s).1 = false
  · simp [h]
  · simp [h]
    split <;> rfl

/-- The dict computed by the stateful resolver coincides with the pure
`get_schema_dict` at the instance's configuration. -/
lemma get_schema_dict_S_fst (env : DbEnv) (s : ReaderState) (t : String) :
    (get_schema_dict_S env s t).1 = get_schema_dict env s.config t := by
  obtain ⟨pa, ct, pr, cq, dq⟩ := env
  cases pa <;> cases ct <;> cases pr <;> try rfl
  by_cases hc :
      (get_table_columns ⟨true, true, true, cq, dq⟩ true).isEmpty = true <;>
    simp [get_schema_dict_S, get_schema_dict, connect_S, connect, hc, live_schema]

/-- The connection parameters are never mutated by a resolution. -/
lemma get_schema_dict_S_config (env : DbEnv) (s : ReaderState) (t : String) :
    (get_schema_dict_S env s t).2.config = s.config := by
  rw [get_schema_dict_S_snd]
  obtain ⟨pa, ct, pr, cq, dq⟩ := env
  cases pa <;> cases ct <;> cases pr <;> rfl

/-! Claim theorems. -/

/-- Claim C1: for every table name and every behaviour of the database
client (driver absent, client construction or probe failure, query
exception, malformed rows, empty results), `get_schema_dict` returns a
schema result — either the live dict with `source = "timeplus_api"`, or
the fallback dict with `source = "fallback"` — so failure is encoded only
in the `source` field.  Totality over all of `DbEnv` models "never
raises": every exception path of the code is a `DbEnv` behaviour and each
one lands in one of the two results. -/
theorem c1_resolve_total_never_raises (env : DbEnv) (cfg : ReaderConfig)
    (t : String) :
    (connect env = true ∧ get_table_columns env true ≠ [] ∧
      get_schema_dict env cfg t = live_schema cfg t (get_table_columns env true) ∧
      (get_schema_dict env cfg t).source = "timeplus_api")
    ∨ (get_schema_dict env cfg t = fallback_schema t ∧
      (get_schema_dict env cfg t).source = "fallback") := by
  by_cases h : connect env = true
  · by_cases h2 : get_table_columns env true = []
    · right
      have hr := get_schema_dict_connected_empty env cfg t h h2
      exact ⟨hr, by rw [hr]; rfl⟩
    · left
      have hr := get_schema_dict_connected_live env cfg t h h2
      exact ⟨h, h2, hr, by rw [hr]; rfl⟩
  · right
    have hf : connect env = false := by
      cases hx : connect env
      · rfl
      · exact absurd hx h
    have hr := get_schema_dict_not_connected env cfg t hf
    exact ⟨hr, by rw [hr]; rfl⟩

/-- Claim C2: a result with `source = "timeplus_api"` always carries a
non-empty column set, and whenever the live column retrieval yields zero
columns on a connected resolver, `get_schema_dict` returns the fallback
result instead. -/
theorem c2_live_source_columns_nonempty (env : DbEnv) (cfg : ReaderConfig)
    (t : String) :
    ((get_schema_dict env cfg t).source = "timeplus_api" →
      (get_schema_dict env cfg t).columns ≠ []) ∧
    (connect env = true → get_table_columns env true = [] →
      get_schema_dict env cfg t = fallback_schema t) := by
  constructor
  · intro hs
    by_cases h : connect env = true
    · by_cases h2 : get_table_columns env true = []
      · rw [get_schema_dict_connected_empty env cfg t h h2] at hs
        exact absurd (show ("fallback" : String) = "timeplus_api" from hs) (by decide)
      · rw [get_schema_dict_connected_live env cfg t h h2]
        cases hcols : get_table_columns env true with
        | nil => exact absurd hcols h2
        | cons c cs =>
            show buildColumns (c :: cs) ≠ []
            exact buildColumns_cons_ne_nil c cs
    · have hf : connect env = false := by
        cases hx : connect env
        · rfl
        · exact absurd hx h
      rw [get_schema_dict_not_connected env cfg t hf] at hs
      exact absurd (show ("fallback" : String) = "timeplus_api" from hs) (by decide)
  · exact get_schema_dict_connected_empty env cfg t

/-- Witness for C2: at a healthy connection with one row the live columns
are non-empty, and at a connected-but-empty database the fallback is
returned. -/
theorem c2_live_source_columns_nonempty_witness :
    (get_schema_dict envHealthy cfg0 "t_metrics").columns ≠ [] ∧
    get_schema_dict envConnectedEmpty cfg0 "t_metrics" = fallback_schema "t_metrics" :=
  ⟨(c2_live_source_columns_nonempty envHealthy cfg0 "t_metrics").1 (by decide),
   (c2_live_source_columns_nonempty envConnectedEmpty cfg0 "t_metrics").2
     (by decide) (by decide)⟩

/-- Claim C3: the merged description of a live column row (name, type,
comment) uses the non-empty database comment in preference to the
business description; an empty comment is replaced by the business
description when the name is in the business table; otherwise the
description is the raw type alone. -/
theorem c3_merge_description_cases (col_name col_type comment : String) :
    (comment ≠ "" →
      mergeDescription col_name col_type comment = col_type ++ " - " ++ comment) ∧
    (comment = "" → ∀ d, get_column_descriptions.lookup col_name = some d →
      mergeDescription col_name col_type comment = col_type ++ " - " ++ d) ∧
    (comment = "" → get_column_descriptions.lookup col_name = none →
      mergeDescription col_name col_type comment = col_type) := by
  refine ⟨fun h => by simp [mergeDescription, h],
    fun h d hd => by simp [mergeDescription, h, hd],
    fun h hd => by simp [mergeDescription, h, hd]⟩

/-- Witness for C3: the three merge cases at concrete inputs — a live
comment wins, an empty comment takes the business description of `value`,
and an unknown column keeps its raw type. -/
theorem c3_merge_description_cases_witness :
    mergeDescription "value" "string" "captured remark" = "string - captured remark" ∧
    mergeDescription "value" "string" "" =
      "string - Metric value (use to_float64() for numeric operations)" ∧
    mergeDescription "col1" "string" "" = "string" :=
  ⟨(c3_merge_description_cases "value" "string" "captured remark").1 (by decide),
   (c3_merge_description_cases "value" "string" "").2.1 rfl
     "Metric value (use to_float64() for numeric operations)" (by decide),
   (c3_merge_description_cases "col1" "string" "").2.2 rfl (by decide)⟩

/-- Counterexample for Claim C4: resolving an unknown table with the live
path unavailable does NOT return an empty column set nor any
"unsupported" indication — `_get_fallback_schema` ignores the table name
and returns the full 17-column t_metrics list (the result equals the
fallback dict, whose only table-specific field is the echoed name). -/
theorem c4_counterexample_unknown_table_full_columns :
    get_schema_dict envNoDriver cfg0 "user_events" = fallback_schema "user_events" ∧
    (get_schema_dict envNoDriver cfg0 "user_events").source = "fallback" ∧
    (get_schema_dict envNoDriver cfg0 "user_events").columns = fallback_columns ∧
    (get_schema_dict envNoDriver cfg0 "user_events").columns.length = 17 ∧
    (get_schema_dict envNoDriver cfg0 "user_events").columns ≠ [] := by
  decide

/-- Claim C4 as amended: for every table name other than `"t_metrics"`,
resolving with no live connection never throws and returns the fallback
result (`source = "fallback"`), but with the full fixed 17-column
t_metrics column list rather than an empty set or an unsupported
indication; the explicit unsupported indication for unknown tables exists
only in the agent-level `get_static_schema` helper (`success = False`,
`source = "unsupported_table"`). -/
theorem c4_amended_unknown_table_fallback (env : DbEnv) (cfg : ReaderConfig)
    (t : String) (hconn : connect env = false) (ht : ¬t = "t_metrics") :
    get_schema_dict env cfg t = fallback_schema t ∧
    (fallback_schema t).source = "fallback" ∧
    (fallback_schema t).columns = fallback_columns ∧
    fallback_columns.length = 17 ∧
    (get_static_schema t).success = false ∧
    (get_static_schema t).source = "unsupported_table" := by
  refine ⟨get_schema_dict_not_connected env cfg t hconn, rfl, rfl, by decide, ?_, ?_⟩
  · simp [get_static_schema, ht]
  · simp [get_static_schema, ht]

/-- Witness for the amended C4 at a concrete unknown table with the
driver absent. -/
theorem c4_amended_unknown_table_fallback_witness :
    get_schema_dict envNoDriver cfg0 "user_events" = fallback_schema "user_events" ∧
    (fallback_schema "user_events").source = "fallback" ∧
    (fallback_schema "user_events").columns = fallback_columns ∧
    fallback_columns.length = 17 ∧
    (get_static_schema "user_events").success = false ∧
    (get_static_schema "user_events").source = "unsupported_table" :=
  c4_amended_unknown_table_fallback envNoDriver cfg0 "user_events"
    (by decide) (by decide)

/-- Counterexample for Claim C5: a malformed row (one field instead of
three) in the primary metadata result does NOT send `get_schema_dict` to
the fallback path — the resolver returns a live result whose column dict
is derived from the malformed row, with the missing fields defaulted to
empty strings. -/
theorem c5_counterexample_malformed_row_live :
    get_schema_dict envMalformedRow cfg0 "t_metrics" ≠ fallback_schema "t_metrics" ∧
    (get_schema_dict envMalformedRow cfg0 "t_metrics").source = "timeplus_api" ∧
    (get_schema_dict envMalformedRow cfg0 "t_metrics").columns = [("col1", "")] := by
  decide

/-- Claim C5 as amended: a malformed row never raises and never by itself
triggers the fallback path; each missing field is defaulted to the empty
string (`row[i] if len(row) > i else ""`) and the row is included in the
live result, so any connected resolution whose primary query returns at
least one row — malformed or not — yields `source = "timeplus_api"`. -/
theorem c5_amended_malformed_row_defaulted (env : DbEnv) (cfg : ReaderConfig)
    (t : String) (rows : List (List String)) (hconn : connect env = true)
    (hq : env.columnsQuery = Except.ok rows) (hne : ¬rows = []) :
    (get_schema_dict env cfg t).source = "timeplus_api" ∧
    (get_schema_dict env cfg t).columns = buildColumns (rows.map sysColumnsRow) ∧
    ∀ row ∈ rows, sysColumnsRow row = (row.getD 0 "", row.getD 1 "", row.getD 2 "") := by
  have hmapne : ¬rows.map sysColumnsRow = [] := by simpa using hne
  have hcols : get_table_columns env true = rows.map sysColumnsRow := by
    simp [get_table_columns, hq, hmapne]
  have hlive := get_schema_dict_connected_live env cfg t hconn
    (by rw [hcols]; exact hmapne)
  rw [hlive, hcols]
  exact ⟨rfl, rfl, fun row _ => rfl⟩

/-- Witness for the amended C5 at the concrete malformed single-field
row. -/
theorem c5_amended_malformed_row_defaulted_witness :
    (get_schema_dict envMalformedRow cfg0 "t_metrics").source = "timeplus_api" ∧
    (get_schema_dict envMalformedRow cfg0 "t_metrics").columns =
      buildColumns ([["col1"]].map sysColumnsRow) ∧
    ∀ row ∈ [["col1"]],
      sysColumnsRow row = (row.getD 0 "", row.getD 1 "", row.getD 2 "") :=
  c5_amended_malformed_row_defaulted envMalformedRow cfg0 "t_metrics" [["col1"]]
    (by decide) rfl (by decide)

/-- Claim C6: on a connected resolution whose primary metadata query
returns zero rows, the secondary `DESCRIBE` query is invoked exactly once
(the instrumented count of `_describe_table` calls is 1, and the column
retrieval is exactly the `DESCRIBE` result), and the fallback result is
returned precisely when that secondary query also yields zero columns. -/
theorem c6_secondary_query_exactly_once (env : DbEnv) (cfg : ReaderConfig)
    (t : String) (hconn : connect env = true)
    (hempty : env.columnsQuery = Except.ok []) :
    (get_table_columns_instr env true).2 = 1 ∧
    get_table_columns env true = describe_table env ∧
    (describe_table env = [] → get_schema_dict env cfg t = fallback_schema t) ∧
    (¬describe_table env = [] →
      (get_schema_dict env cfg t).source = "timeplus_api") := by
  have h1 : (get_table_columns_instr env true).2 = 1 := by
    simp [get_table_columns_instr, hempty]
  have h2 : get_table_columns env true = describe_table env := by
    simp [get_table_columns, hempty]
  refine ⟨h1, h2, fun hd => ?_, fun hd => ?_⟩
  · exact get_schema_dict_connected_empty env cfg t hconn (h2.trans hd)
  · rw [get_schema_dict_connected_live env cfg t hconn (by rw [h2]; exact hd)]
    rfl

/-- Witness for C6 at a concrete behaviour where the primary query is
empty and `DESCRIBE` returns one row. -/
theorem c6_secondary_query_exactly_once_witness :
    (get_table_columns_instr envPrimaryEmpty true).2 = 1 ∧
    get_table_columns envPrimaryEmpty true = describe_table envPrimaryEmpty ∧
    (describe_table envPrimaryEmpty = [] →
      get_schema_dict envPrimaryEmpty cfg0 "t_metrics" = fallback_schema "t_metrics") ∧
    (¬describe_table envPrimaryEmpty = [] →
      (get_schema_dict envPrimaryEmpty cfg0 "t_metrics").source = "timeplus_api") :=
  c6_secondary_query_exactly_once envPrimaryEmpty cfg0 "t_metrics" (by decide) rfl

/-- Counterexample for Claim C7: the connection is NOT released on the
call's exit paths.  After a successful resolution starting from a fresh
reader, the constructed client is still stored in the instance's
`client` field — an open connection is retained after the call returns. -/
theorem c7_counterexample_connection_retained :
    (get_schema_dict_S envHealthy s0 "t_metrics").2.client = some 0 ∧
    ¬(get_schema_dict_S envHealthy s0 "t_metrics").2.client = none ∧
    (get_schema_dict_S envHealthy s0 "t_metrics").1.source = "timeplus_api" := by
  decide

/-- Claim C7 as amended: each call that reaches client construction opens
a fresh connection (the stored client is the newly allocated one, never a
reused one — no pooling), but no exit path releases it: the client
remains stored in the reader's `client` field after the call returns,
on success and on probe failure alike; when the driver is absent or
construction raises, the field (and the whole state) is left unchanged.
The connection parameters are never mutated. -/
theorem c7_amended_fresh_connection_retained (env : DbEnv) (s : ReaderState)
    (t : String) :
    (env.protonAvailable = true → env.ctorOk = true →
      (get_schema_dict_S env s t).2.client = some s.nextId ∧
      (get_schema_dict_S env s t).2.nextId = s.nextId + 1 ∧
      (get_schema_dict_S env s t).2.config = s.config) ∧
    (env.protonAvailable = false ∨ env.ctorOk = false →
      (get_schema_dict_S env s t).2 = s) := by
  constructor
  · intro hpa hct
    rw [get_schema_dict_S_snd, connect_S_snd_of_ctor env s hpa hct]
    exact ⟨rfl, rfl, rfl⟩
  · intro h
    rw [get_schema_dict_S_snd, connect_S_snd_of_fail env s h]

/-- Witness for the amended C7: a healthy call retains the freshly
allocated client, and a driver-absent call leaves the state untouched. -/
theorem c7_amended_fresh_connection_retained_witness :
    ((get_schema_dict_S envHealthy s0 "t_metrics").2.client = some s0.nextId ∧
     (get_schema_dict_S envHealthy s0 "t_metrics").2.nextId = s0.nextId + 1 ∧
     (get_schema_dict_S envHealthy s0 "t_metrics").2.config = s0.config) ∧
    (get_schema_dict_S envNoDriver s0 "t_metrics").2 = s0 :=
  ⟨(c7_amended_fresh_connection_retained envHealthy s0 "t_metrics").1 rfl rfl,
   (c7_amended_fresh_connection_retained envNoDriver s0 "t_metrics").2 (Or.inl rfl)⟩

/-- Claim C8: when the connection attempt fails (client construction or
the `SELECT 1` probe raises), `get_schema_dict "t_metrics"` returns
exactly the fixed fallback result: `source = "fallback"` and the literal
17-entry column list. -/
theorem c8_unreachable_fixed_fallback (env : DbEnv) (cfg : ReaderConfig)
    (h : env.ctorOk = false ∨ env.probeOk = false) :
    get_schema_dict env cfg "t_metrics" = fallback_schema "t_metrics" ∧
    (get_schema_dict env cfg "t_metrics").source = "fallback" ∧
    (get_schema_dict env cfg "t_metrics").columns =
      [("event_ts", "uint64 - Event timestamp"),
       ("metric", "string - Metric name identifier"),
       ("value", "string - Metric value (use to_float64() for numeric operations)"),
       ("metric_date", "int64 - Date component"),
       ("metric_time", "int64 - Time component"),
       ("metric_datetime", "int64 - Combined datetime"),
       ("tagK1", "low_cardinality(string) - Tag key 1"),
       ("tagV1", "string - Tag value 1"),
       ("tagK2", "low_cardinality(string) - Tag key 2"),
       ("tagV2", "string - Tag value 2"),
       ("tagK3", "low_cardinality(string) - Tag key 3"),
       ("tagV3", "string - Tag value 3"),
       ("tagK4", "low_cardinality(string) - Tag key 4"),
       ("tagV4", "string - Tag value 4"),
       ("tagK5", "low_cardinality(string) - Tag key 5"),
       ("tagV5", "string - Tag value 5"),
       ("_tp_time", "datetime64(3, \x27UTC\x27) - System timestamp")] := by
  have hc : connect env = false := by
    unfold connect
    rcases h with h | h <;> simp [h]
  have hr := get_schema_dict_not_connected env cfg "t_metrics" hc
  exact ⟨hr, by rw [hr]; rfl, by rw [hr]; rfl⟩

/-- Witness for C8 at a concrete connection-refused behaviour. -/
theorem c8_unreachable_fixed_fallback_witness :
    get_schema_dict envConnRefused cfg0 "t_metrics" = fallback_schema "t_metrics" ∧
    (get_schema_dict envConnRefused cfg0 "t_metrics").source = "fallback" ∧
    (get_schema_dict envConnRefused cfg0 "t_metrics").columns =
      [("event_ts", "uint64 - Event timestamp"),
       ("metric", "string - Metric name identifier"),
       ("value", "string - Metric value (use to_float64() for numeric operations)"),
       ("metric_date", "int64 - Date component"),
       ("metric_time", "int64 - Time component"),
       ("metric_datetime", "int64 - Combined datetime"),
       ("tagK1", "low_cardinality(string) - Tag key 1"),
       ("tagV1", "string - Tag value 1"),
       ("tagK2", "low_cardinality(string) - Tag key 2"),
       ("tagV2", "string - Tag value 2"),
       ("tagK3", "low_cardinality(string) - Tag key 3"),
       ("tagV3", "string - Tag value 3"),
       ("tagK4", "low_cardinality(string) - Tag key 4"),
       ("tagV4", "string - Tag value 4"),
       ("tagK5", "low_cardinality(string) - Tag key 5"),
       ("tagV5", "string - Tag value 5"),
       ("_tp_time", "datetime64(3, \x27UTC\x27) - System timestamp")] :=
  c8_unreachable_fixed_fallback envConnRefused cfg0 (Or.inr rfl)

/-- Claim C9: with a healthy connection and the database returning the
same rows both times, resolving twice in a row on the same resolver state
yields the same result — in particular the same column set in the same
order — because the dict is a function of the client behaviour and the
never-mutated connection parameters only. -/
theorem c9_resolve_deterministic (env : DbEnv) (s : ReaderState) (t : String)
    (hconn : connect env = true) :
    (get_schema_dict_S env ((get_schema_dict_S env s t).2) t).1 =
      (get_schema_dict_S env s t).1 ∧
    ((get_schema_dict_S env ((get_schema_dict_S env s t).2) t).1).columns =
      ((get_schema_dict_S env s t).1).columns := by
  have h1 := get_schema_dict_S_fst env s t
  have h2 := get_schema_dict_S_fst env ((get_schema_dict_S env s t).2) t
  rw [get_schema_dict_S_config env s t] at h2
  exact ⟨h2.trans h1.symm, by rw [h2, h1]⟩

/-- Witness for C9 at a healthy concrete behaviour and a fresh reader. -/
theorem c9_resolve_deterministic_witness :
    (get_schema_dict_S envHealthy ((get_schema_dict_S envHealthy s0 "t_metrics").2)
        "t_metrics").1 =
      (get_schema_dict_S envHealthy s0 "t_metrics").1 ∧
    ((get_schema_dict_S envHealthy ((get_schema_dict_S envHealthy s0 "t_metrics").2)
        "t_metrics").1).columns =
      ((get_schema_dict_S envHealthy s0 "t_metrics").1).columns :=
  c9_resolve_deterministic envHealthy s0 "t_metrics" rfl

/-- Claim C10: `get_table_schema` resolves through the process-wide
reader: the first `get_schema_reader` call on an unset global constructs
the reader from the environment of that moment and stores it; every
subsequent call — whatever the environment then holds — returns the
stored instance unchanged, and `get_table_schema` resolves with that
instance's stored connection parameters and writes its mutated client
state back to the global. -/
theorem c10_singleton_reader (e1 e2 : EnvVars) (r : ReaderState) (env : DbEnv)
    (t : String) :
    get_schema_reader e1 none = (mkReaderState e1, some (mkReaderState e1)) ∧
    get_schema_reader e2 (some r) = (r, some r) ∧
    (get_table_schema e2 env (some r) t).1 = get_schema_dict env r.config t ∧
    (get_table_schema e2 env (some r) t).2 = some ((get_schema_dict_S env r t).2) :=
  ⟨rfl, rfl, get_schema_dict_S_fst env r t, rfl⟩
